import Mathlib

/-!
Shallow embedding of `scripts/mediapipe_pose.py`.

The script reads a JSON payload `{"frames": [...]}` from stdin, runs the
mediapipe pose detector on each frame's optional base64 image, extracts
twelve named landmarks with coordinates clamped to [0,1], and prints
`{"frames": [...]}` to stdout.  The external pose detector (image decoding
plus `pose.process`) is modelled as an oracle function `detect`; numbers are
modelled as rationals.
-/

namespace MediapipePose

/-- JSON values, as Python's `json` module materialises them: objects keep
insertion order and are modelled as association lists. -/
inductive JVal where
  | null : JVal
  | bool (b : Bool) : JVal
  | num (q : ℚ) : JVal
  | str (s : String) : JVal
  | arr (xs : List JVal) : JVal
  | obj (kvs : List (String × JVal)) : JVal

/-- Python truthiness of a JSON value (`None`, `False`, `0`, `""`, `[]`, `{}`
are falsy, everything else truthy). -/
def truthy : JVal → Bool
  | .null => false
  | .bool b => b
  | .num q => q ≠ 0
  | .str s => s ≠ ""
  | .arr xs => ¬ xs.isEmpty
  | .obj kvs => ¬ kvs.isEmpty

/-- Python's `dict.get(key)`: `some v` when the key is present (first match),
`none` when absent. -/
def jget (kvs : List (String × JVal)) (key : String) : Option JVal :=
  (kvs.find? (fun p => p.1 = key)).map (fun p => p.2)

/-- `LANDMARK_INDEX`: the fixed name-to-index table, in the insertion order
of the Python dict literal. -/
def LANDMARK_INDEX : List (String × Nat) :=
  [("leftShoulder", 11), ("rightShoulder", 12),
   ("leftElbow", 13), ("rightElbow", 14),
   ("leftWrist", 15), ("rightWrist", 16),
   ("leftHip", 23), ("rightHip", 24),
   ("leftKnee", 25), ("rightKnee", 26),
   ("leftAnkle", 27), ("rightAnkle", 28)]

/-- `clamp01`: `None` passes through; values below 0 become 0, above 1
become 1, otherwise the value is returned unchanged (`float(value)`). -/
def clamp01 : Option ℚ → Option ℚ
  | none => none
  | some value =>
      if value < 0 then some 0
      else if value > 1 then some 1
      else some value

/-- A detected landmark point as the script reads it: fields `x` and `y`,
either of which the script tolerates being `None`. -/
structure LM where
  x : Option ℚ
  y : Option ℚ

/-- The landmark sequence handed to `extract_pose`: `none` models Python
`None`; list entries may themselves be `None`. -/
abbrev Landmarks := Option (List (Option LM))

/-- One landmark's JSON value inside `extract_pose`:
`{"x": clamp01(lm.x), "y": clamp01(lm.y)}` with `None` rendered as null. -/
def lmJson (lm : LM) : JVal :=
  .obj [("x", (clamp01 lm.x).elim .null .num),
        ("y", (clamp01 lm.y).elim .null .num)]

/-- The per-landmark body of the `extract_pose` loop: null when the sequence
is falsy (`None` or empty, `if not pose_landmarks`) or too short
(`idx >= len(pose_landmarks)`) or the entry is `None`; otherwise the clamped
`{x, y}` object. -/
def extractVal (pose_landmarks : Landmarks) (idx : Nat) : JVal :=
  match pose_landmarks with
  | none => JVal.null
  | some lms =>
      if lms.isEmpty ∨ lms.length ≤ idx then JVal.null
      else
        match lms.getD idx none with
        | none => JVal.null
        | some lm => lmJson lm

/-- `extract_pose`: one entry per `(name, idx)` of `LANDMARK_INDEX`, in that
order, each carrying `extractVal`. -/
def extract_pose (pose_landmarks : Landmarks) : List (String × JVal) :=
  LANDMARK_INDEX.map (fun p => (p.1, extractVal pose_landmarks p.2))

/-- The external detector pipeline for one frame, an oracle for
`decode_image` followed by `pose.process`: given the base64 string it either
raises (`.error`), reports no pose (`.ok none`: falsy `result` or falsy
`result.pose_landmarks`), or yields `result.pose_landmarks.landmark`. -/
abbrev Detect := String → Except String Landmarks

/-- Lines 75-81 of the loop body: `pose_landmarks = None`, overwritten by
the detector result only when `base64Image` is truthy.  A truthy non-string
`base64Image` raises inside `base64.b64decode`. -/
def framePoseLandmarks (detect : Detect) (kvs : List (String × JVal)) :
    Except String Landmarks :=
  let base64_image := (jget kvs "base64Image").getD .null
  if truthy base64_image then
    match base64_image with
    | .str s => detect s
    | _ => .error "TypeError: argument should be a bytes-like object or ASCII string"
  else pure none

/-- The body of the frame loop for one frame: read `idx` and `base64Image`
with `.get`, obtain `pose_landmarks` via `framePoseLandmarks`, and build
`{"idx": idx, "pose": extract_pose(pose_landmarks)}`.  A non-dict frame
raises (`frame.get` does not exist). -/
def processFrame (detect : Detect) (frame : JVal) : Except String JVal :=
  match frame with
  | .obj kvs =>
      (framePoseLandmarks detect kvs).map (fun pose_landmarks =>
        .obj [("idx", (jget kvs "idx").getD .null),
              ("pose", .obj (extract_pose pose_landmarks))])
  | _ => .error "AttributeError: object has no attribute get"

/-- The `for frame in frames` loop accumulating `out_frames`; the first
raising frame aborts the whole batch. -/
def frameLoop (detect : Detect) : List JVal → Except String (List JVal)
  | [] => .ok []
  | frame :: rest =>
      match processFrame detect frame with
      | .error e => .error e
      | .ok out =>
          match frameLoop detect rest with
          | .error e => .error e
          | .ok outs => .ok (out :: outs)

/-- `main`: `payload.get("frames") or []`, then the frame loop, then the
output document `{"frames": out_frames}`.  A non-dict payload raises at
`payload.get`; a truthy non-list `frames` raises when iterated (strings and
dicts iterate to strings, which lack `.get`; other scalars are not
iterable). -/
def main (detect : Detect) (payload : JVal) : Except String JVal :=
  match payload with
  | .obj kvs =>
      let framesVal := (jget kvs "frames").getD .null
      let frames := if truthy framesVal then framesVal else .arr []
      match frames with
      | .arr fs =>
          (frameLoop detect fs).map (fun out_frames =>
            .obj [("frames", .arr out_frames)])
      | _ => .error "TypeError: object is not iterable of dicts"
  | _ => .error "AttributeError: object has no attribute get"

/-- Observable outcome of one process run: exit status, the JSON document
printed to stdout (if any), and the message printed to stderr (if any). -/
structure ProcResult where
  exitCode : Nat
  stdout : Option JVal
  stderr : Option String

/-- The `__main__` guard: `json.load(sys.stdin)` (its outcome is the `input`
argument) feeds `main()`; any exception prints its text to stderr and exits
with status 1, success prints the document and exits 0.  `print` runs only
after the whole loop, so a failing run emits nothing on stdout. -/
def runScript (detect : Detect) (input : Except String JVal) : ProcResult :=
  match input >>= main detect with
  | .ok out => ⟨0, some out, none⟩
  | .error e => ⟨1, none, some e⟩

/-- Concrete detector fixture: every image yields no detected pose. -/
def detectNone : Detect := fun _ => .ok none

/-- Concrete detector fixture: every image raises (e.g. malformed base64). -/
def detectErr : Detect := fun _ => .error "Invalid base64-encoded string"

/-- Concrete landmark-sequence fixture: thirty-three points whose coordinates
exercise both clamping branches at index 11. -/
def lmsFix : List (Option LM) :=
  List.replicate 11 (some ⟨some 0, some 0⟩) ++
    [some ⟨some 2, some (-1)⟩] ++ List.replicate 21 (some ⟨some 1, some 0⟩)

/-- Concrete detector fixture: every image yields `lmsFix`. -/
def detectFix : Detect := fun _ => .ok (some lmsFix)

/-! ## Helper lemmas -/

/-- Every branch of the `extract_pose` body keeps the landmark's name as the
key, so the key sequence is that of `LANDMARK_INDEX`. -/
theorem extract_pose_keys (pl : Landmarks) :
    (extract_pose pl).map Prod.fst = LANDMARK_INDEX.map Prod.fst := by
  unfold extract_pose
  rw [List.map_map]
  rfl

/-- `extract_pose` yields one entry per `LANDMARK_INDEX` entry. -/
theorem extract_pose_length (pl : Landmarks) :
    (extract_pose pl).length = LANDMARK_INDEX.length := by
  unfold extract_pose
  exact List.length_map _ _

/-- With no landmark sequence, every landmark value is null. -/
theorem extract_pose_none_eq :
    extract_pose none = LANDMARK_INDEX.map (fun p => (p.1, JVal.null)) := rfl

/-- A successful `processFrame` run happens on a dict frame and produces the
two-key object `{"idx": frame.get("idx"), "pose": extract_pose(...)}`. -/
theorem processFrame_ok_shape (detect : Detect) (frame v : JVal)
    (hok : processFrame detect frame = .ok v) :
    ∃ (kvs : List (String × JVal)) (pl : Landmarks), frame = .obj kvs ∧
      v = .obj [("idx", (jget kvs "idx").getD .null),
                ("pose", .obj (extract_pose pl))] := by
  cases frame with
  | obj kvs =>
      refine ⟨kvs, ?_⟩
      have hok' : (framePoseLandmarks detect kvs).map (fun pose_landmarks =>
          JVal.obj [("idx", (jget kvs "idx").getD JVal.null),
                    ("pose", JVal.obj (extract_pose pose_landmarks))]) = .ok v := hok
      cases hE : framePoseLandmarks detect kvs with
      | error e => rw [hE] at hok'; simp [Except.map] at hok'
      | ok pl =>
          rw [hE] at hok'
          simp only [Except.map, Except.ok.injEq] at hok'
          exact ⟨pl, rfl, hok'.symm⟩
  | null => simp [processFrame] at hok
  | bool b => simp [processFrame] at hok
  | num q => simp [processFrame] at hok
  | str s => simp [processFrame] at hok
  | arr xs => simp [processFrame] at hok

/-- When `base64Image` is absent or falsy, the detector is never consulted
and `pose_landmarks` stays `None`. -/
theorem framePoseLandmarks_not_truthy (detect : Detect)
    (kvs : List (String × JVal))
    (h : truthy ((jget kvs "base64Image").getD .null) = false) :
    framePoseLandmarks detect kvs = .ok none := by
  unfold framePoseLandmarks
  simp [h, pure, Except.pure]

/-- A successful loop run has one output per input, in input order, each
output being the successful processing of the input at the same position. -/
theorem frameLoop_spec (detect : Detect) (fs out : List JVal)
    (h : frameLoop detect fs = .ok out) :
    out.length = fs.length ∧
    ∀ (i : Nat) (hf : i < fs.length) (ho : i < out.length),
      processFrame detect (fs.get ⟨i, hf⟩) = .ok (out.get ⟨i, ho⟩) := by
  induction fs generalizing out with
  | nil =>
      unfold frameLoop at h
      injection h with h
      subst h
      exact ⟨rfl, fun i hf => absurd hf (Nat.not_lt_zero i)⟩
  | cons f rest ih =>
      unfold frameLoop at h
      cases hp : processFrame detect f with
      | error e => rw [hp] at h; cases h
      | ok o =>
          rw [hp] at h
          cases hr : frameLoop detect rest with
          | error e => rw [hr] at h; cases h
          | ok os =>
              rw [hr] at h
              injection h with h
              subst h
              obtain ⟨hl, hg⟩ := ih os hr
              refine ⟨by simp [hl], ?_⟩
              intro i hf ho
              cases i with
              | zero => simpa using hp
              | succ n =>
                  simpa using hg n (by simpa using hf) (by simpa using ho)

/-- When the payload's `frames` key holds a list, `main` is the frame loop
over exactly that list (the `or []` default only replaces a falsy value,
and the empty list it would replace is the empty list itself). -/
theorem main_frames_arr (detect : Detect) (kvs : List (String × JVal))
    (fs : List JVal) (h : jget kvs "frames" = some (.arr fs)) :
    main detect (.obj kvs) =
      (frameLoop detect fs).map (fun out_frames =>
        .obj [("frames", .arr out_frames)]) := by
  have : main detect (.obj kvs) =
      (let framesVal := (jget kvs "frames").getD .null
       let frames := if truthy framesVal then framesVal else .arr []
       match frames with
       | .arr fs =>
           (frameLoop detect fs).map (fun out_frames =>
             .obj [("frames", .arr out_frames)])
       | _ => .error "TypeError: object is not iterable of dicts") := rfl
  rw [this, h]
  cases fs with
  | nil => simp [truthy]
  | cons f rest => simp [truthy]

/-- The landmark names of `LANDMARK_INDEX` are pairwise distinct. -/
theorem landmark_names_nodup : (LANDMARK_INDEX.map Prod.fst).Nodup := by
  decide

/-- Looking a key up in a key-preserving image of an association list with
distinct keys finds the image of that key's entry. -/
theorem jget_map_eq {α : Type} (l : List (String × α)) (f : String × α → JVal)
    (name : String) (a : α) (hnd : (l.map Prod.fst).Nodup)
    (hmem : (name, a) ∈ l) :
    jget (l.map (fun p => (p.1, f p))) name = some (f (name, a)) := by
  induction l with
  | nil => cases hmem
  | cons p rest ih =>
      simp only [List.map_cons, List.nodup_cons] at hnd
      rcases List.mem_cons.mp hmem with heq | hrest
      · subst heq
        simp [jget]
      · have hne : p.1 ≠ name := by
          intro hcontra
          exact hnd.1 (hcontra ▸ (List.mem_map.mpr ⟨(name, a), hrest, rfl⟩))
        simp only [jget, List.map_cons, List.find?]
        rw [show (decide (p.1 = name)) = false from decide_eq_false hne]
        exact ih hnd.2 hrest

/-! ## Claim theorems -/

/-- C1: for every valid input payload (a dict whose `frames` key holds a
list), a successful run outputs exactly one frame entry per input frame, in
the same order: the output list has the input's length and its `i`-th entry
is the processing of the `i`-th input frame. -/
theorem C1_one_output_frame_per_input_in_order (detect : Detect)
    (kvs : List (String × JVal)) (fs : List JVal) (v : JVal)
    (hf : jget kvs "frames" = some (.arr fs))
    (hok : main detect (.obj kvs) = .ok v) :
    ∃ out : List JVal, v = .obj [("frames", .arr out)] ∧
      out.length = fs.length ∧
      ∀ (i : Nat) (hfi : i < fs.length) (hoi : i < out.length),
        processFrame detect (fs.get ⟨i, hfi⟩) = .ok (out.get ⟨i, hoi⟩) := by
  rw [main_frames_arr detect kvs fs hf] at hok
  cases hL : frameLoop detect fs with
  | error e => rw [hL] at hok; cases hok
  | ok out =>
      rw [hL] at hok
      simp only [Except.map, Except.ok.injEq] at hok
      obtain ⟨hl, hg⟩ := frameLoop_spec detect fs out hL
      exact ⟨out, hok.symm, hl, hg⟩

/-- Witness for C1 at a one-frame payload and the no-pose detector. -/
theorem C1_witness :
    ∃ out : List JVal,
      JVal.obj [("frames", JVal.arr [JVal.obj [("idx", JVal.num 1),
          ("pose", JVal.obj (extract_pose none))]])]
        = JVal.obj [("frames", JVal.arr out)] ∧
      out.length = [JVal.obj [("idx", JVal.num 1)]].length ∧
      ∀ (i : Nat) (hfi : i < [JVal.obj [("idx", JVal.num 1)]].length)
        (hoi : i < out.length),
        processFrame detectNone ([JVal.obj [("idx", JVal.num 1)]].get ⟨i, hfi⟩)
          = .ok (out.get ⟨i, hoi⟩) :=
  C1_one_output_frame_per_input_in_order detectNone
    [("frames", JVal.arr [JVal.obj [("idx", JVal.num 1)]])]
    [JVal.obj [("idx", JVal.num 1)]]
    (JVal.obj [("frames", JVal.arr [JVal.obj [("idx", JVal.num 1),
      ("pose", JVal.obj (extract_pose none))]])])
    rfl rfl

/-- C2: whatever the detector returned, a successfully processed frame's
`pose` object has exactly the twelve recognized landmark names as keys, in
the fixed order, no more and no fewer. -/
theorem C2_pose_has_exactly_twelve_keys (detect : Detect) (frame v : JVal)
    (hok : processFrame detect frame = .ok v) :
    ∃ (idx : JVal) (ps : List (String × JVal)),
      v = .obj [("idx", idx), ("pose", .obj ps)] ∧
      ps.map Prod.fst = ["leftShoulder", "rightShoulder", "leftElbow",
        "rightElbow", "leftWrist", "rightWrist", "leftHip", "rightHip",
        "leftKnee", "rightKnee", "leftAnkle", "rightAnkle"] := by
  obtain ⟨kvs, pl, hfr, hv⟩ := processFrame_ok_shape detect frame v hok
  exact ⟨_, _, hv, by rw [extract_pose_keys]; rfl⟩

/-- Witness for C2 at an empty frame dict and the no-pose detector. -/
theorem C2_witness :
    ∃ (idx : JVal) (ps : List (String × JVal)),
      JVal.obj [("idx", JVal.null), ("pose", JVal.obj (extract_pose none))]
        = JVal.obj [("idx", idx), ("pose", JVal.obj ps)] ∧
      ps.map Prod.fst = ["leftShoulder", "rightShoulder", "leftElbow",
        "rightElbow", "leftWrist", "rightWrist", "leftHip", "rightHip",
        "leftKnee", "rightKnee", "leftAnkle", "rightAnkle"] :=
  C2_pose_has_exactly_twelve_keys detectNone (JVal.obj [])
    (JVal.obj [("idx", JVal.null), ("pose", JVal.obj (extract_pose none))])
    rfl

/-- C3: a frame's `idx` value is echoed back unchanged in the corresponding
output frame. -/
theorem C3_idx_roundtrip (detect : Detect) (kvs : List (String × JVal))
    (j v : JVal) (hidx : jget kvs "idx" = some j)
    (hok : processFrame detect (.obj kvs) = .ok v) :
    ∃ ps : List (String × JVal), v = .obj [("idx", j), ("pose", .obj ps)] := by
  obtain ⟨kvs', pl, hfr, hv⟩ := processFrame_ok_shape detect _ v hok
  injection hfr with hkvs
  subst hkvs
  rw [hidx, Option.getD_some] at hv
  exact ⟨_, hv⟩

/-- Witness for C3 at a frame whose `idx` is the string "a". -/
theorem C3_witness :
    ∃ ps : List (String × JVal),
      JVal.obj [("idx", JVal.str "a"), ("pose", JVal.obj (extract_pose none))]
        = JVal.obj [("idx", JVal.str "a"), ("pose", JVal.obj ps)] :=
  C3_idx_roundtrip detectNone [("idx", JVal.str "a")] (JVal.str "a")
    (JVal.obj [("idx", JVal.str "a"), ("pose", JVal.obj (extract_pose none))])
    rfl rfl

/-- C4: `clamp01` clamps to [0,1] (below 0 becomes 0, above 1 becomes 1, a
value already in [0,1] is unchanged, null stays null), every non-null
result lies in [0,1], and every emitted landmark object carries exactly the
clamp of the detector's `x` and `y` values. -/
theorem C4_coordinates_clamped :
    (∀ v : ℚ, v < 0 → clamp01 (some v) = some 0) ∧
    (∀ v : ℚ, 1 < v → clamp01 (some v) = some 1) ∧
    (∀ v : ℚ, 0 ≤ v → v ≤ 1 → clamp01 (some v) = some v) ∧
    clamp01 none = none ∧
    (∀ (o : Option ℚ) (q : ℚ), clamp01 o = some q → 0 ≤ q ∧ q ≤ 1) ∧
    (∀ (pl : Landmarks) (nv : String × JVal), nv ∈ extract_pose pl →
        nv.2 = JVal.null ∨ ∃ lm : LM, nv.2 = JVal.obj
          [("x", (clamp01 lm.x).elim JVal.null JVal.num),
           ("y", (clamp01 lm.y).elim JVal.null JVal.num)]) := by
  refine ⟨?_, ?_, ?_, rfl, ?_, ?_⟩
  · intro v hv
    show (if v < 0 then some (0 : ℚ) else if v > 1 then some 1 else some v) = some 0
    rw [if_pos hv]
  · intro v hv
    show (if v < 0 then some (0 : ℚ) else if v > 1 then some 1 else some v) = some 1
    rw [if_neg (not_lt.mpr (le_of_lt (lt_trans zero_lt_one hv))), if_pos hv]
  · intro v h0 h1
    show (if v < 0 then some (0 : ℚ) else if v > 1 then some 1 else some v) = some v
    rw [if_neg (not_lt.mpr h0), if_neg (not_lt.mpr h1)]
  · intro o q hq
    cases o with
    | none => cases hq
    | some v =>
        have hq' : (if v < 0 then some (0 : ℚ)
            else if v > 1 then some 1 else some v) = some q := hq
        split_ifs at hq' with hlt hgt <;> injection hq' with hq' <;> subst hq'
        · exact ⟨le_refl 0, zero_le_one⟩
        · exact ⟨zero_le_one, le_refl 1⟩
        · exact ⟨not_lt.mp hlt, not_lt.mp hgt⟩
  · intro pl nv hmem
    unfold extract_pose at hmem
    obtain ⟨p, _, hp⟩ := List.mem_map.mp hmem
    subst hp
    show extractVal pl p.2 = JVal.null ∨ _
    unfold extractVal
    split
    · exact Or.inl rfl
    · split
      · exact Or.inl rfl
      · split
        · exact Or.inl rfl
        next lm _ => exact Or.inr ⟨lm, rfl⟩

/-- Witness for C4 at the values -1, 2, 1, a none coordinate, and the
all-null landmark row of an undetected pose. -/
theorem C4_witness :
    clamp01 (some (-1)) = some 0 ∧
    clamp01 (some 2) = some 1 ∧
    clamp01 (some 1) = some 1 ∧
    (0 ≤ (1 : ℚ) ∧ (1 : ℚ) ≤ 1) ∧
    (("leftShoulder", JVal.null) : String × JVal).2 = JVal.null ∨ False :=
  Or.inl ⟨C4_coordinates_clamped.1 (-1) (by norm_num),
    C4_coordinates_clamped.2.1 2 (by norm_num),
    C4_coordinates_clamped.2.2.1 1 (by norm_num) (by norm_num),
    C4_coordinates_clamped.2.2.2.2.1 (some 1) 1 (by rfl),
    by rfl⟩

/-- C5: an error anywhere (bad JSON on stdin, or any exception out of
`main`, covering bad base64, corrupt images and model failures) makes the
process print that error text to stderr and exit with status 1, with no
JSON on stdout; a successful run prints the output document and exits 0. -/
theorem C5_failure_reporting (detect : Detect) (input : Except String JVal) :
    (∀ e : String,
        (input = .error e ∨ ∃ p : JVal, input = .ok p ∧ main detect p = .error e) →
        runScript detect input = ⟨1, none, some e⟩) ∧
    (∀ (p v : JVal), input = .ok p → main detect p = .ok v →
        runScript detect input = ⟨0, some v, none⟩) := by
  constructor
  · rintro e (he | ⟨p, hp, hm⟩)
    · subst he; rfl
    · subst hp
      unfold runScript
      simp only [Bind.bind, Except.bind, hm]
  · rintro p v hp hm
    subst hp
    unfold runScript
    simp only [Bind.bind, Except.bind, hm]

/-- Witness for C5: a stdin parse failure, a mid-batch detector failure, and
a successful empty batch. -/
theorem C5_witness :
    runScript detectNone (.error "Expecting value") = ⟨1, none, some "Expecting value"⟩ ∧
    runScript detectErr
        (.ok (JVal.obj [("frames", JVal.arr [JVal.obj [("base64Image", JVal.str "!!")]])]))
      = ⟨1, none, some "Invalid base64-encoded string"⟩ ∧
    runScript detectNone (.ok (JVal.obj []))
      = ⟨0, some (JVal.obj [("frames", JVal.arr [])]), none⟩ :=
  ⟨(C5_failure_reporting detectNone (.error "Expecting value")).1
      "Expecting value" (Or.inl rfl),
   (C5_failure_reporting detectErr
      (.ok (JVal.obj [("frames", JVal.arr [JVal.obj [("base64Image", JVal.str "!!")]])]))).1
      "Invalid base64-encoded string"
      (Or.inr ⟨_, rfl, rfl⟩),
   (C5_failure_reporting detectNone (.ok (JVal.obj []))).2
      (JVal.obj []) (JVal.obj [("frames", JVal.arr [])]) rfl rfl⟩

/-- C6: a frame without a `base64Image` key skips detection (the result does
not depend on the detector) and yields an output frame whose pose has all
twelve landmark values null. -/
theorem C6_no_image_all_null (detect : Detect) (kvs : List (String × JVal))
    (h : jget kvs "base64Image" = none) :
    processFrame detect (.obj kvs)
      = .ok (.obj [("idx", (jget kvs "idx").getD .null),
          ("pose", .obj (LANDMARK_INDEX.map (fun p => (p.1, JVal.null))))]) := by
  have ht : truthy ((jget kvs "base64Image").getD .null) = false := by
    rw [h]; rfl
  have hpl := framePoseLandmarks_not_truthy detect kvs ht
  show (framePoseLandmarks detect kvs).map _ = _
  rw [hpl]
  rfl

/-- Witness for C6 at a frame dict carrying only `idx`. -/
theorem C6_witness :
    processFrame detectFix (.obj [("idx", JVal.num 7)])
      = .ok (.obj [("idx", (jget [("idx", JVal.num 7)] "idx").getD .null),
          ("pose", .obj (LANDMARK_INDEX.map (fun p => (p.1, JVal.null))))]) :=
  C6_no_image_all_null detectFix [("idx", JVal.num 7)] rfl

/-- C7: for a fixed (name, index) pair, a missing sequence, a too-short
sequence, or an absent entry at that index makes the extractor emit null for
that name (total, no out-of-range failure); in particular an undetected pose
(`None` sequence) satisfies this for every pair. -/
theorem C7_missing_landmark_is_null (pl : Landmarks) (name : String)
    (idx : Nat) (hmem : (name, idx) ∈ LANDMARK_INDEX)
    (hmiss : pl = none ∨ ∃ lms : List (Option LM), pl = some lms ∧
        (lms.length ≤ idx ∨ lms.getD idx none = none)) :
    jget (extract_pose pl) name = some JVal.null := by
  have hj := jget_map_eq LANDMARK_INDEX
    (fun p => extractVal pl p.2) name idx landmark_names_nodup hmem
  rw [show extract_pose pl
      = LANDMARK_INDEX.map (fun p => (p.1, extractVal pl p.2)) from rfl, hj]
  refine congrArg some ?_
  rcases hmiss with hnone | ⟨lms, hlms, hshort | habsent⟩
  · subst hnone; rfl
  · subst hlms
    show (if lms.isEmpty ∨ lms.length ≤ idx then JVal.null else _) = JVal.null
    rw [if_pos (Or.inr hshort)]
  · subst hlms
    by_cases hc : lms.isEmpty ∨ lms.length ≤ idx
    · show (if lms.isEmpty ∨ lms.length ≤ idx then JVal.null else _) = JVal.null
      rw [if_pos hc]
    · show (if lms.isEmpty ∨ lms.length ≤ idx then JVal.null
          else match lms.getD idx none with
               | none => JVal.null
               | some lm => lmJson lm) = JVal.null
      rw [if_neg hc, habsent]

/-- Witness for C7 at the pair ("rightAnkle", 28) and a sequence of twelve
points, too short to reach index 28. -/
theorem C7_witness :
    jget (extract_pose (some (List.replicate 12 (some (⟨some 0, some 0⟩ : LM)))))
      "rightAnkle" = some JVal.null :=
  C7_missing_landmark_is_null
    (some (List.replicate 12 (some (⟨some 0, some 0⟩ : LM))))
    "rightAnkle" 28 (by decide)
    (Or.inr ⟨_, rfl, Or.inl (by decide)⟩)

/-- C8: a frame whose `base64Image` is present but the empty string is
processed exactly like a frame without the key (same `idx` lookup assumed):
no detector call, and an all-null pose. -/
theorem C8_empty_image_like_absent (detect : Detect)
    (kvs kvs' : List (String × JVal))
    (h : jget kvs "base64Image" = some (.str ""))
    (h' : jget kvs' "base64Image" = none)
    (hidx : jget kvs' "idx" = jget kvs "idx") :
    processFrame detect (.obj kvs) = processFrame detect (.obj kvs') ∧
    processFrame detect (.obj kvs)
      = .ok (.obj [("idx", (jget kvs "idx").getD .null),
          ("pose", .obj (LANDMARK_INDEX.map (fun p => (p.1, JVal.null))))]) := by
  have ht : truthy ((jget kvs "base64Image").getD .null) = false := by
    rw [h]; rfl
  have ht' : truthy ((jget kvs' "base64Image").getD .null) = false := by
    rw [h']; rfl
  have e1 := framePoseLandmarks_not_truthy detect kvs ht
  have e2 := framePoseLandmarks_not_truthy detect kvs' ht'
  constructor
  · show (framePoseLandmarks detect kvs).map _
        = (framePoseLandmarks detect kvs').map _
    rw [e1, e2, hidx]
  · show (framePoseLandmarks detect kvs).map _ = _
    rw [e1]
    rfl

/-- Witness for C8 at `{"idx": 3, "base64Image": ""}` versus `{"idx": 3}`. -/
theorem C8_witness :
    processFrame detectFix (.obj [("idx", JVal.num 3), ("base64Image", JVal.str "")])
      = processFrame detectFix (.obj [("idx", JVal.num 3)]) ∧
    processFrame detectFix (.obj [("idx", JVal.num 3), ("base64Image", JVal.str "")])
      = .ok (.obj [("idx", (jget [("idx", JVal.num 3),
            ("base64Image", JVal.str "")] "idx").getD .null),
          ("pose", .obj (LANDMARK_INDEX.map (fun p => (p.1, JVal.null))))]) :=
  C8_empty_image_like_absent detectFix
    [("idx", JVal.num 3), ("base64Image", JVal.str "")]
    [("idx", JVal.num 3)] rfl rfl rfl

/-- C9: a payload whose `frames` key is absent, null, or the empty list
succeeds and outputs `{"frames": []}`. -/
theorem C9_frames_default (detect : Detect) (kvs : List (String × JVal))
    (h : jget kvs "frames" = none ∨ jget kvs "frames" = some JVal.null ∨
         jget kvs "frames" = some (.arr [])) :
    main detect (.obj kvs) = .ok (.obj [("frames", .arr [])]) := by
  have hm : main detect (.obj kvs) =
      (let framesVal := (jget kvs "frames").getD .null
       let frames := if truthy framesVal then framesVal else .arr []
       match frames with
       | .arr fs =>
           (frameLoop detect fs).map (fun out_frames =>
             .obj [("frames", .arr out_frames)])
       | _ => .error "TypeError: object is not iterable of dicts") := rfl
  rcases h with h | h | h <;> rw [hm, h] <;> rfl

/-- Witness for C9 at the three payloads `{}`, `{"frames": null}` and
`{"frames": []}`. -/
theorem C9_witness :
    main detectFix (.obj []) = .ok (.obj [("frames", .arr [])]) ∧
    main detectFix (.obj [("frames", JVal.null)])
      = .ok (.obj [("frames", .arr [])]) ∧
    main detectFix (.obj [("frames", JVal.arr [])])
      = .ok (.obj [("frames", .arr [])]) :=
  ⟨C9_frames_default detectFix [] (Or.inl rfl),
   C9_frames_default detectFix [("frames", JVal.null)] (Or.inr (Or.inl rfl)),
   C9_frames_default detectFix [("frames", JVal.arr [])]
     (Or.inr (Or.inr rfl))⟩

/-- C10: a frame without an `idx` key still produces an output frame whose
`idx` key is present with value null. -/
theorem C10_missing_idx_becomes_null (detect : Detect)
    (kvs : List (String × JVal)) (v : JVal)
    (h : jget kvs "idx" = none)
    (hok : processFrame detect (.obj kvs) = .ok v) :
    ∃ ps : List (String × JVal),
      v = .obj [("idx", JVal.null), ("pose", .obj ps)] := by
  obtain ⟨kvs', pl, hfr, hv⟩ := processFrame_ok_shape detect _ v hok
  injection hfr with hkvs
  subst hkvs
  rw [h] at hv
  exact ⟨_, hv⟩

/-- Witness for C10 at the empty frame dict. -/
theorem C10_witness :
    ∃ ps : List (String × JVal),
      JVal.obj [("idx", JVal.null), ("pose", JVal.obj (extract_pose none))]
        = JVal.obj [("idx", JVal.null), ("pose", JVal.obj ps)] :=
  C10_missing_idx_becomes_null detectNone []
    (JVal.obj [("idx", JVal.null), ("pose", JVal.obj (extract_pose none))])
    rfl rfl

end MediapipePose
